import Mathlib

/-!
Verification of the navigation-mesh library against its specification.

The embedding below is a shallow model of src/src/nav_mesh.rs.  Floating
point scalars are modelled by exact real numbers.  The vector primitive
NavVec3 and the unordered pair NavConnection belong to the crate but are
declared outside src/ (only nav_mesh.rs is provided), so their operations
are modelled from the specification, section 6; each such definition is
marked in its doc comment.  Everything else is translated directly from
nav_mesh.rs.
-/

open scoped Classical

noncomputable section

namespace Navmesh

/-- Scalar type of the library; the IEEE-754 float is modelled by the reals. -/
abbrev Scalar : Type := ℝ

/-- Tolerance constant of the crate (1e-5 in the 32-bit build). -/
def ZERO_TRESHOLD : Scalar := 1 / 100000

/-- Largest finite scalar, the model of f32::MAX used at nav_mesh.rs:9
(the scalar64 build uses f64::MAX instead; no claim depends on the value,
only on it being an ordinary finite scalar). -/
def SCALAR_MAX : Scalar := (2 - (2 : ℝ) ^ (-23 : ℤ)) * 2 ^ (127 : ℕ)

/-- Modelled from the spec: the 3D vector primitive (vec3.rs is not under
src/).  Value semantics, three scalar components. -/
structure NavVec3 where
  x : Scalar
  y : Scalar
  z : Scalar

instance : Inhabited NavVec3 := ⟨⟨0, 0, 0⟩⟩

instance : Add NavVec3 := ⟨fun u v => ⟨u.x + v.x, u.y + v.y, u.z + v.z⟩⟩

instance : Sub NavVec3 := ⟨fun u v => ⟨u.x - v.x, u.y - v.y, u.z - v.z⟩⟩

instance : HMul NavVec3 Scalar NavVec3 := ⟨fun v s => ⟨v.x * s, v.y * s, v.z * s⟩⟩

instance : HDiv NavVec3 Scalar NavVec3 := ⟨fun v s => ⟨v.x / s, v.y / s, v.z / s⟩⟩

namespace NavVec3

/-- Modelled from the spec: standard dot product. -/
def dot (u v : NavVec3) : Scalar := u.x * v.x + u.y * v.y + u.z * v.z

/-- Modelled from the spec: standard cross product. -/
def cross (u v : NavVec3) : NavVec3 :=
  ⟨u.y * v.z - u.z * v.y, u.z * v.x - u.x * v.z, u.x * v.y - u.y * v.x⟩

/-- Modelled from the spec: squared Euclidean magnitude. -/
def sqrMagnitude (v : NavVec3) : Scalar := v.x * v.x + v.y * v.y + v.z * v.z

/-- Modelled from the spec: Euclidean magnitude. -/
def magnitude (v : NavVec3) : Scalar := Real.sqrt v.sqrMagnitude

/-- Modelled from the spec: unit vector; on the zero vector the result is the
zero vector (the spec requires implementations to return the zero vector). -/
def normalize (v : NavVec3) : NavVec3 := v * (v.magnitude)⁻¹

/-- Modelled from the spec: signed parameter of the projection of p onto the
line through a and b, computed via dot of p - a with b - a divided by the
squared length of b - a (spec, section 4.1). -/
def project (p a b : NavVec3) : Scalar := (p - a).dot (b - a) / (b - a).sqrMagnitude

/-- Modelled from the spec: unproject(a, b, t) = a + (b - a) * t. -/
def unproject (a b : NavVec3) (t : Scalar) : NavVec3 := a + (b - a) * t

/-- Modelled from the spec: orthogonal projection of p onto the plane through
o with normal n (for the unit normals it is applied to this is
p - n * dot(p - o, n)). -/
def projectOnPlane (p o n : NavVec3) : NavVec3 := p - n * ((p - o).dot n / n.dot n)

/-- Modelled from the spec: strictly above the plane through o with normal n,
with the ZERO_TRESHOLD tolerance, so points exactly on the plane are
treated as not above. -/
def isAbovePlane (p o n : NavVec3) : Prop := (p - o).dot n > ZERO_TRESHOLD

/-- Modelled from the spec: componentwise equality within ZERO_TRESHOLD. -/
def sameAs (u v : NavVec3) : Prop :=
  |u.x - v.x| < ZERO_TRESHOLD ∧ |u.y - v.y| < ZERO_TRESHOLD ∧ |u.z - v.z| < ZERO_TRESHOLD

/-- Modelled from the spec: thresholded sign used by the side tests of
is_line_between_points. -/
def sideOf (v : Scalar) : ℤ := if |v| < ZERO_TRESHOLD then 0 else if v > 0 then 1 else -1

/-- Modelled from the spec: true iff the segment p -> q, projected into the
plane with normal n, crosses the edge (a, b) strictly between its endpoints;
realised as the thresholded side test of a and b against the line p -> q in
that plane. -/
def isLineBetweenPoints (p q a b n : NavVec3) : Prop :=
  sideOf (((q - p).cross n).dot (a - p)) ≠ sideOf (((q - p).cross n).dot (b - p))

/-- Modelled from the spec: intersect the segment p -> q with the plane
through a with normal n, returning the hit point iff it lies within the
segment bounds. -/
def raycastLine (p q a b n : NavVec3) : Option NavVec3 :=
  let _ := b
  let dir := (q - p).normalize
  let denom := n.dot dir
  if |denom| > ZERO_TRESHOLD then
    let t := (a - p).dot n / denom
    if 0 ≤ t ∧ t ≤ (q - p).magnitude then some (p + dir * t) else none
  else none

end NavVec3

/-- Modelled from the spec: unordered pair of indices stored with a canonical
ordering but compared as an unordered set (NavConnection lives outside
src/). -/
structure NavConnection where
  fst : ℕ
  snd : ℕ
deriving DecidableEq

/-- Canonical constructor of an unordered connection. -/
def connMk (a b : ℕ) : NavConnection := if a ≤ b then ⟨a, b⟩ else ⟨b, a⟩

/-- Nav mesh triangle description, nav_mesh.rs:45. -/
structure NavTriangle where
  first : ℕ
  second : ℕ
  third : ℕ
deriving DecidableEq

/-- Slot accessor of a triangle: 0 is first, 1 is second, 2 is third. -/
def NavTriangle.slot (t : NavTriangle) : ℕ → ℕ
  | 0 => t.first
  | 1 => t.second
  | _ => t.third

/-- Build-time error of the crate, the sole error kind. -/
inductive NavError where
  | TriangleVerticeIndexOutOfBounds (triangle which value : ℕ)
deriving DecidableEq

/-- Nav mesh area descriptor, nav_mesh.rs:74. -/
structure NavArea where
  triangle : ℕ
  size : Scalar
  cost : Scalar
  center : NavVec3
  radius : Scalar
  radius_sqr : Scalar

instance : Inhabited NavArea := ⟨⟨0, 0, 0, default, 0, 0⟩⟩

/-- Triangle area value, nav_mesh.rs:98. -/
def NavArea.calculateArea (a b c : NavVec3) : Scalar :=
  ((b - a).cross (c - a)).magnitude * 0.5

/-- Triangle center point, nav_mesh.rs:111. -/
def NavArea.calculateCenter (a b c : NavVec3) : NavVec3 :=
  let v := a + b + c
  ⟨v.x / 3, v.y / 3, v.z / 3⟩

/-- Spatial triangle record, nav_mesh.rs:118. -/
structure NavSpatialObject where
  index : ℕ
  a : NavVec3
  b : NavVec3
  c : NavVec3
  ab : NavVec3
  bc : NavVec3
  ca : NavVec3
  normal : NavVec3
  dab : NavVec3
  dbc : NavVec3
  dca : NavVec3

instance : Inhabited NavSpatialObject :=
  ⟨⟨0, default, default, default, default, default, default, default, default, default, default⟩⟩

/-- Record constructor, nav_mesh.rs:133. -/
def NavSpatialObject.new (index : ℕ) (a b c : NavVec3) : NavSpatialObject :=
  let ab := b - a
  let bc := c - b
  let ca := a - c
  let normal := ((a - b).cross (a - c)).normalize
  ⟨index, a, b, c, ab, bc, ca, normal, normal.cross ab, normal.cross bc, normal.cross ca⟩

/-- Closest point on the triangle record, nav_mesh.rs:161. -/
def NavSpatialObject.closestPoint (s : NavSpatialObject) (point : NavVec3) : NavVec3 :=
  let pab := point.project s.a s.b
  let pbc := point.project s.b s.c
  let pca := point.project s.c s.a
  if pca > 1 ∧ pab < 0 then s.a
  else if pab > 1 ∧ pbc < 0 then s.b
  else if pbc > 1 ∧ pca < 0 then s.c
  else if (0 ≤ pab ∧ pab ≤ 1) ∧ ¬ point.isAbovePlane s.a s.dab then NavVec3.unproject s.a s.b pab
  else if (0 ≤ pbc ∧ pbc ≤ 1) ∧ ¬ point.isAbovePlane s.b s.dbc then NavVec3.unproject s.b s.c pbc
  else if (0 ≤ pca ∧ pca ≤ 1) ∧ ¬ point.isAbovePlane s.c s.dca then NavVec3.unproject s.c s.a pca
  else point.projectOnPlane s.a s.normal

/-- Squared distance from a point to the record, nav_mesh.rs:199. -/
def NavSpatialObject.distance2 (s : NavSpatialObject) (point : NavVec3) : Scalar :=
  (point - s.closestPoint point).sqrMagnitude

/-- Quality of querying a point on the nav mesh, nav_mesh.rs:206. -/
inductive NavQuery where
  | Accuracy
  | Closest
  | ClosestFirst

/-- Quality of finding a path, nav_mesh.rs:217. -/
inductive NavPathMode where
  | Accuracy
  | MidPoints

/-- The three edge connections of a triangle, in the order the build loop
visits them (first-second, second-third, third-first), nav_mesh.rs:328. -/
def triEdges (t : NavTriangle) : List NavConnection :=
  [connMk t.first t.second, connMk t.second t.third, connMk t.third t.first]

/-- Update of the edge map: push a triangle index under one edge key,
nav_mesh.rs:331. -/
def pushEdge (f : NavConnection → List ℕ) (e : NavConnection) (k : ℕ) :
    NavConnection → List ℕ :=
  fun e2 => if e2 = e then f e2 ++ [k] else f e2

/-- Update of the edge map: push a triangle index under its three edges,
nav_mesh.rs:327. -/
def pushTriangle (f : NavConnection → List ℕ) (k : ℕ) (t : NavTriangle) :
    NavConnection → List ℕ :=
  pushEdge (pushEdge (pushEdge f (connMk t.first t.second) k) (connMk t.second t.third) k)
    (connMk t.third t.first) k

/-- Fold of the edge map build over a triangle list, nav_mesh.rs:326. -/
def buildEdgesMapAux : ℕ → List NavTriangle → (NavConnection → List ℕ) →
    NavConnection → List ℕ
  | _, [], f => f
  | k, t :: rest, f => buildEdgesMapAux (k + 1) rest (pushTriangle f k t)

/-- Edge map of the mesh: every edge connection maps to the list of triangle
indices pushed under it, in build order, nav_mesh.rs:326. -/
def buildEdgesMap (ts : List NavTriangle) : NavConnection → List ℕ :=
  buildEdgesMapAux 0 ts (fun _ => [])

/-- Every triangle of the list has its three vertex indices in bounds. -/
def trianglesInBounds (vs : List NavVec3) (ts : List NavTriangle) : Prop :=
  ∀ t ∈ ts, t.first < vs.length ∧ t.second < vs.length ∧ t.third < vs.length

/-- Bounds validation of a single triangle, in slot order, nav_mesh.rs:285. -/
def checkTriangle (n i : ℕ) (t : NavTriangle) : Option NavError :=
  if n ≤ t.first then some (.TriangleVerticeIndexOutOfBounds i 0 t.first)
  else if n ≤ t.second then some (.TriangleVerticeIndexOutOfBounds i 1 t.second)
  else if n ≤ t.third then some (.TriangleVerticeIndexOutOfBounds i 2 t.third)
  else none

/-- First validation error over the triangle list, nav_mesh.rs:282 (the
sequential collect of the per-triangle results short-circuits at the first
error). -/
def firstErrorAux (n : ℕ) : ℕ → List NavTriangle → Option NavError
  | _, [] => none
  | i, t :: rest =>
    match checkTriangle n i t with
    | some e => some e
    | none => firstErrorAux n (i + 1) rest

/-- Vertex lookup; in-bounds indexing of the vertex list (out-of-bounds
indexing panics in the source and is modelled by the default vector, which
no claim reaches). -/
def vAt (vs : List NavVec3) (i : ℕ) : NavVec3 := vs.getD i default

/-- Per-triangle area records, nav_mesh.rs:306 (the geometric payload of the
validated build loop). -/
def mkAreas (vs : List NavVec3) (ts : List NavTriangle) : List NavArea :=
  ts.enum.map fun it =>
    let a := vAt vs it.2.first
    let b := vAt vs it.2.second
    let c := vAt vs it.2.third
    let center := NavArea.calculateCenter a b c
    let radius := max ((a - center).magnitude) (max ((b - center).magnitude) ((c - center).magnitude))
    ⟨it.1, NavArea.calculateArea a b c, 1, center, radius, radius * radius⟩

/-- Nav mesh object, nav_mesh.rs:226.  The connection map, graph, r-tree,
spatial records and hard edges are precomputed in the source; here they are
derived (by definitions below) from the three data fields, which yields the
same values for every mesh the constructor returns. -/
structure NavMesh where
  vertices : List NavVec3
  triangles : List NavTriangle
  areas : List NavArea

/-- Mesh constructor, nav_mesh.rs:275: validates every triangle slot in order
and otherwise assembles the mesh. -/
def NavMesh.new (vs : List NavVec3) (ts : List NavTriangle) : Except NavError NavMesh :=
  match firstErrorAux vs.length 0 ts with
  | some e => .error e
  | none => .ok ⟨vs, ts, mkAreas vs ts⟩

namespace NavMesh

/-- Vertex lookup on the mesh. -/
def vertexAt (m : NavMesh) (i : ℕ) : NavVec3 := vAt m.vertices i

/-- Area lookup on the mesh (panicking indexing modelled total). -/
def areaAt (m : NavMesh) (i : ℕ) : NavArea := m.areas.getD i default

/-- Cost factor of a triangle, as read by the search, nav_mesh.rs:952. -/
def costAt (m : NavMesh) (i : ℕ) : Scalar := (m.areaAt i).cost

/-- Spatial records of the mesh, nav_mesh.rs:380. -/
def spatials (m : NavMesh) : List NavSpatialObject :=
  m.triangles.enum.map fun it =>
    NavSpatialObject.new it.1 (m.vertexAt it.2.first) (m.vertexAt it.2.second)
      (m.vertexAt it.2.third)

/-- Spatial record lookup (panicking indexing modelled total). -/
def spatialAt (m : NavMesh) (i : ℕ) : NavSpatialObject := m.spatials.getD i default

/-- Face normal of a triangle of the mesh. -/
def normalAt (m : NavMesh) (i : ℕ) : NavVec3 := (m.spatialAt i).normal

/-- All edge connections of the mesh, with repetitions, in triangle order
(the key set of the edge map of nav_mesh.rs:326). -/
def allEdgeConns (m : NavMesh) : List NavConnection := m.triangles.flatMap triEdges

/-- Occurrence list of one edge in the edge map. -/
def edgeTris (m : NavMesh) (e : NavConnection) : List ℕ := buildEdgesMap m.triangles e

/-- Triangle-connection map lookup, nav_mesh.rs:348: a pair of distinct
triangles is connected iff some edge is incident to both, and the stored
value is the squared centroid distance together with that vertex edge.
When the two triangles share more than one edge the HashMap of the source
keeps an iteration-order dependent one of them; this model keeps the first
shared edge in triangle-edge order. -/
def connLookup (m : NavMesh) (c : NavConnection) : Option (Scalar × NavConnection) :=
  (m.allEdgeConns.find? fun e =>
      (m.edgeTris e).contains c.fst && (m.edgeTris e).contains c.snd && c.fst != c.snd).map
    fun e => (((m.areaAt c.snd).center - (m.areaAt c.fst).center).sqrMagnitude, e)

/-- Vertex edge shared by two connected triangles, as read by the refinement
passes, nav_mesh.rs:692 (the source indexes the connection map and panics on
a missing key; the model is total with a default no claim reaches). -/
def portal (m : NavMesh) (t0 t1 : ℕ) : NavConnection :=
  ((m.connLookup (connMk t0 t1)).map Prod.snd).getD ⟨0, 0⟩

/-- Undirected graph edge list over triangle nodes, nav_mesh.rs:369: one
edge per ordered pair of distinct triangles incident to a common edge
(the source dedups through HashMap keys; repetitions are tolerated by the
search exactly as duplicate undirected edges are in the source graph). -/
def graphEdges (m : NavMesh) : List (ℕ × ℕ) :=
  m.allEdgeConns.flatMap fun e =>
    (m.edgeTris e).flatMap fun a =>
      (m.edgeTris e).filterMap fun b => if a = b then none else some (a, b)

end NavMesh

/-- Neighbors of a node in an undirected edge list. -/
def neighbors (es : List (ℕ × ℕ)) (u : ℕ) : List ℕ :=
  es.filterMap fun e =>
    if e.1 = u then some e.2 else if e.2 = u then some e.1 else none

/-- Modelled from the spec: breadth-first search core of the path query.
The spec (section 4.3) contracts the external A* to return a node sequence
and its accumulated cost, or none iff the goal is unreachable; which of the
reachable corridors is returned (minimal cost in the library) is not
distinguished by any claim settled here, and this model returns a
fewest-edges one.  Queue entries are reversed paths; nodes are marked
visited when enqueued, so node-count + 1 fuel suffices on the graphs built
above. -/
def bfsAux (es : List (ℕ × ℕ)) (goal : ℕ) :
    ℕ → List (List ℕ) → List ℕ → Option (List ℕ)
  | 0, _, _ => none
  | _ + 1, [], _ => none
  | fuel + 1, p :: queue, visited =>
    match p with
    | [] => bfsAux es goal fuel queue visited
    | u :: _ =>
      if u = goal then some p.reverse
      else
        let ns := (neighbors es u).filter fun v => !(visited.contains v)
        bfsAux es goal fuel (queue ++ ns.map fun v => v :: p) (visited ++ ns)

/-- Modelled from the spec: entry point of the graph search, see bfsAux. -/
def bfs (es : List (ℕ × ℕ)) (start goal fuel : ℕ) : Option (List ℕ) :=
  bfsAux es goal fuel [[start]] [start]

namespace NavMesh

/-- Edge cost function of the search, nav_mesh.rs:947: the stored squared
centroid distance times both endpoint cost factors when the filter accepts
the edge, and SCALAR_MAX when it rejects it. -/
def edgeCostFn (m : NavMesh) (filter : Scalar → ℕ → ℕ → Bool) (u v : ℕ) : Scalar :=
  let w := ((m.connLookup (connMk u v)).map Prod.fst).getD 0
  if filter w u v then w * m.costAt u * m.costAt v else SCALAR_MAX

/-- Accumulated cost of a node sequence under the edge cost function. -/
def pathCost (m : NavMesh) (filter : Scalar → ℕ → ℕ → Bool) : List ℕ → Scalar
  | u :: v :: rest => m.edgeCostFn filter u v + pathCost m filter (v :: rest)
  | _ => 0

/-- Triangle-to-triangle path query with a custom filter, nav_mesh.rs:933.
Out-of-bounds node indexing panics in the source and is modelled by none. -/
def findPathTrianglesCustom (m : NavMesh) (src dst : ℕ)
    (filter : Scalar → ℕ → ℕ → Bool) : Option (List ℕ × Scalar) :=
  if src < m.triangles.length ∧ dst < m.triangles.length then
    (bfs m.graphEdges src dst (m.triangles.length + 1)).map fun p =>
      (p, m.pathCost filter p)
  else none

/-- Triangle-to-triangle path query, nav_mesh.rs:888. -/
def findPathTriangles (m : NavMesh) (src dst : ℕ) : Option (List ℕ × Scalar) :=
  m.findPathTrianglesCustom src dst fun _ _ _ => true

end NavMesh

/-- Removal of consecutive duplicate points, the model of Vec::dedup used at
nav_mesh.rs:785 and nav_mesh.rs:849. -/
def dedupC : List NavVec3 → List NavVec3
  | [] => []
  | [a] => [a]
  | a :: b :: rest => if a = b then dedupC (b :: rest) else a :: dedupC (b :: rest)

/-- Sliding windows of width three, the model of slice::windows(3) used by
the refinement loops. -/
def windows3 : List ℕ → List (ℕ × ℕ × ℕ)
  | a :: b :: c :: rest => (a, b, c) :: windows3 (b :: c :: rest)
  | _ => []

/-- Last two elements of a corridor, the model of the back indexing of
nav_mesh.rs:740 (default junk outside corridors of length two or more). -/
def lastTwo (l : List ℕ) : ℕ × ℕ :=
  match l.reverse with
  | b :: a :: _ => (a, b)
  | _ => (0, 0)

/-- Node stream entry of the accuracy refinement, nav_mesh.rs:684. -/
inductive NavNode where
  | point (p : NavVec3)
  | levelChange (a b n : NavVec3)

/-- Materialization pass of the accuracy refinement, nav_mesh.rs:760: a
running point is advanced at Point nodes; a LevelChange node raycasts from
the running point toward the next Point node (or the path end) and emits
the hit when one exists. -/
def materializeAcc (q : NavVec3) : NavVec3 → List NavNode → List NavVec3
  | _, [] => []
  | _, NavNode.point p :: rest => p :: materializeAcc q p rest
  | cur, NavNode.levelChange a b n :: rest =>
    let next := (rest.findSome? fun nd =>
      match nd with
      | NavNode.point p => some p
      | _ => none).getD q
    match NavVec3.raycastLine cur next a b n with
    | some p => p :: materializeAcc q cur rest
    | none => materializeAcc q cur rest

namespace NavMesh

/-- One interior step of the accuracy refinement over a corridor triplet,
nav_mesh.rs:714: state is the running start point, the previous face
normal, and the node stream gathered so far. -/
def accStep (m : NavMesh) (st : NavVec3 × NavVec3 × List NavNode) (w : ℕ × ℕ × ℕ) :
    NavVec3 × NavVec3 × List NavNode :=
  let start := st.1
  let lastN := st.2.1
  let nodes := st.2.2
  let e1 := m.portal w.1 w.2.1
  let a := m.vertexAt e1.fst
  let b := m.vertexAt e1.snd
  let e2 := m.portal w.2.1 w.2.2
  let c := m.vertexAt e2.fst
  let d := m.vertexAt e2.snd
  let normal := m.normalAt w.2.1
  if ¬ NavVec3.isLineBetweenPoints start c a b normal ∨
      ¬ NavVec3.isLineBetweenPoints start d a b normal then
    let np := if (start - a).sqrMagnitude < (start - b).sqrMagnitude then a else b
    (np, normal, nodes ++ [NavNode.point np])
  else if lastN.dot normal < 1 - ZERO_TRESHOLD then
    (start, normal, nodes ++ [NavNode.levelChange a b ((b - a).normalize.cross (m.normalAt w.1))])
  else (start, normal, nodes)

/-- Accuracy refinement of a corridor, nav_mesh.rs:682.  Corridors of length
zero or one are never passed in by the caller (nav_mesh.rs:671) and yield
the empty path here. -/
def findPathAccuracy (m : NavMesh) (p q : NavVec3) (tris : List ℕ) : List NavVec3 :=
  match tris with
  | [t0, t1] =>
    let e := m.portal t0 t1
    let a := m.vertexAt e.fst
    let b := m.vertexAt e.snd
    let n := m.normalAt t0
    let mm := m.normalAt t1
    if ¬ NavVec3.isLineBetweenPoints p q a b n then
      let point := if (p - a).sqrMagnitude < (p - b).sqrMagnitude then a else b
      [p, point, q]
    else if n.dot mm < 1 - ZERO_TRESHOLD then
      match NavVec3.raycastLine p q a b ((b - a).normalize.cross n) with
      | some point => [p, point, q]
      | none => [p, q]
    else [p, q]
  | t0 :: t1 :: t2 :: rest =>
    let res := (windows3 (t0 :: t1 :: t2 :: rest)).foldl m.accStep (p, m.normalAt t0, [])
    let start := res.1
    let nodes := res.2.2
    let tl := lastTwo (t0 :: t1 :: t2 :: rest)
    let e := m.portal tl.1 tl.2
    let a := m.vertexAt e.fst
    let b := m.vertexAt e.snd
    let n := m.normalAt tl.1
    let mm := m.normalAt tl.2
    let nodes2 :=
      if ¬ NavVec3.isLineBetweenPoints start q a b n then
        nodes ++ [NavNode.point
          (if (start - a).sqrMagnitude < (start - b).sqrMagnitude then a else b)]
      else if n.dot mm < 1 - ZERO_TRESHOLD then
        nodes ++ [NavNode.levelChange a b ((b - a).normalize.cross n)]
      else nodes
    dedupC (p :: (materializeAcc q p nodes2 ++ [q]))
  | _ => []

/-- One interior step of the midpoints refinement over a corridor triplet,
nav_mesh.rs:808: state is the running start point, the previous face
normal, and the emitted points so far. -/
def midStep (m : NavMesh) (st : NavVec3 × NavVec3 × List NavVec3) (w : ℕ × ℕ × ℕ) :
    NavVec3 × NavVec3 × List NavVec3 :=
  let start := st.1
  let lastN := st.2.1
  let pts := st.2.2
  let e1 := m.portal w.1 w.2.1
  let a := m.vertexAt e1.fst
  let b := m.vertexAt e1.snd
  let point := (a + b) * (0.5 : Scalar)
  let normal := m.normalAt w.2.1
  if lastN.dot normal < 1 - ZERO_TRESHOLD then (point, normal, pts ++ [point])
  else
    let e2 := m.portal w.2.1 w.2.2
    let c := m.vertexAt e2.fst
    let d := m.vertexAt e2.snd
    if ¬ NavVec3.isLineBetweenPoints start ((c + d) * (0.5 : Scalar)) a b normal then
      (point, normal, pts ++ [point])
    else (start, normal, pts)

/-- Midpoints refinement of a corridor, nav_mesh.rs:789. -/
def findPathMidpoints (m : NavMesh) (p q : NavVec3) (tris : List ℕ) : List NavVec3 :=
  match tris with
  | [t0, t1] =>
    let e := m.portal t0 t1
    let a := m.vertexAt e.fst
    let b := m.vertexAt e.snd
    let n := m.normalAt t0
    let mm := m.normalAt t1
    if n.dot mm < 1 - ZERO_TRESHOLD ∨ ¬ NavVec3.isLineBetweenPoints p q a b n then
      [p, (a + b) * (0.5 : Scalar), q]
    else [p, q]
  | t0 :: t1 :: t2 :: rest =>
    let res := (windows3 (t0 :: t1 :: t2 :: rest)).foldl m.midStep (p, m.normalAt t0, [p])
    let start := res.1
    let pts := res.2.2
    let tl := lastTwo (t0 :: t1 :: t2 :: rest)
    let e := m.portal tl.1 tl.2
    let a := m.vertexAt e.fst
    let b := m.vertexAt e.snd
    let n := m.normalAt tl.1
    let mm := m.normalAt tl.2
    let pts2 :=
      if n.dot mm < 1 - ZERO_TRESHOLD ∨ ¬ NavVec3.isLineBetweenPoints start q a b n then
        pts ++ [(a + b) * (0.5 : Scalar)]
      else pts
    dedupC (pts2 ++ [q])
  | _ => []

/-- Nearest-triangle query, nav_mesh.rs:972.  The r-tree is external; the
spec contracts Accuracy to the exact nearest record by squared distance,
Closest to a rescored minimum over the candidates the r-tree surfaces, and
ClosestFirst to an approximate close neighbor that may be aliased to the
exact query (spec, section 9); this model answers all three with the exact
first minimum, and returns none exactly on the empty mesh. -/
def findClosestTriangle (m : NavMesh) (p : NavVec3) (query : NavQuery) : Option ℕ :=
  match query, m.spatials with
  | _, [] => none
  | _, s0 :: rest =>
    some ((rest.foldl (fun best s2 => if s2.distance2 p < best.distance2 p then s2 else best)
      s0).index)

/-- Full path query with a custom filter, nav_mesh.rs:652. -/
def findPathCustom (m : NavMesh) (p q : NavVec3) (query : NavQuery) (mode : NavPathMode)
    (filter : Scalar → ℕ → ℕ → Bool) : Option (List NavVec3) :=
  if NavVec3.sameAs p q then none
  else
    match m.findClosestTriangle p query, m.findClosestTriangle q query with
    | some s, some e =>
      let p2 := (m.spatialAt s).closestPoint p
      let q2 := (m.spatialAt e).closestPoint q
      match m.findPathTrianglesCustom s e filter with
      | none => none
      | some (tris, _) =>
        if tris.isEmpty then none
        else if tris.length = 1 then some [p2, q2]
        else
          match mode with
          | NavPathMode.Accuracy => some (m.findPathAccuracy p2 q2 tris)
          | NavPathMode.MidPoints => some (m.findPathMidpoints p2 q2 tris)
    | _, _ => none

/-- Full path query, nav_mesh.rs:589. -/
def findPath (m : NavMesh) (p q : NavVec3) (query : NavQuery) (mode : NavPathMode) :
    Option (List NavVec3) :=
  m.findPathCustom p q query mode fun _ _ _ => true

/-- Sum of consecutive segment lengths of a polyline. -/
def segSum : List NavVec3 → Scalar
  | a :: b :: rest => (b - a).magnitude + segSum (b :: rest)
  | _ => 0

/-- Path length, nav_mesh.rs:1082. -/
def pathLength (path : List NavVec3) : Scalar :=
  match path with
  | [] => 0
  | [_] => 0
  | [a, b] => (b - a).magnitude
  | l => segSum l

/-- Signed arc length of the projection onto one segment, nav_mesh.rs:1092. -/
def projectOnLine (a b point : NavVec3) : Scalar :=
  (b - a).magnitude * (point.project a b)

/-- Clamped projection onto one segment with its arc length,
nav_mesh.rs:1098. -/
def pointOnLine (a b point : NavVec3) : NavVec3 × Scalar :=
  let d := (b - a).magnitude
  let p := point.project a b
  if p ≤ 0 then (a, 0)
  else if 1 ≤ p then (b, d)
  else (NavVec3.unproject a b p, p * d)

/-- Candidates of the multi-segment projection: cumulative arc length of the
projection and squared distance to the query point per window,
nav_mesh.rs:1028. -/
def projWalk (point : NavVec3) : Scalar → List NavVec3 → List (Scalar × Scalar)
  | _, [] => []
  | _, [_] => []
  | acc, a :: b :: rest =>
    (acc + (pointOnLine a b point).2, ((pointOnLine a b point).1 - point).sqrMagnitude) ::
      projWalk point (acc + (b - a).magnitude) (b :: rest)

/-- Minimum candidate by squared distance, keeping the first of equal minima
as Iterator::min_by does, nav_mesh.rs:1038. -/
def minBySnd (l : List (Scalar × Scalar)) : Scalar :=
  match l with
  | [] => 0
  | x :: xs => (xs.foldl (fun best y => if y.2 < best.2 then y else best) x).1

/-- Arc-length projection of a point onto a path, nav_mesh.rs:1023: the raw
projected arc length plus the offset, clamped below at zero and above at
the path length. -/
def projectOnPath (path : List NavVec3) (point : NavVec3) (offset : Scalar) : Scalar :=
  let p :=
    match path with
    | [] => 0
    | [_] => 0
    | [a, b] => projectOnLine a b point
    | l => minBySnd (projWalk point 0 l)
  min (max (p + offset) 0) (pathLength path)

/-- Walk of the multi-segment point-at-arc-length query, nav_mesh.rs:1063:
the distance is decremented by each segment length until it fits in the
current segment, and the walk falls off the end with none otherwise. -/
def pointOnPathWalk : Scalar → List NavVec3 → Option NavVec3
  | s, a :: b :: rest =>
    if s ≤ (b - a).magnitude then some (NavVec3.unproject a b (s / (b - a).magnitude))
    else pointOnPathWalk (s - (b - a).magnitude) (b :: rest)
  | _, _ => none

/-- Point on a path at a given distance from its start, nav_mesh.rs:1054. -/
def pointOnPath (path : List NavVec3) (s : Scalar) : Option NavVec3 :=
  match path with
  | [] => none
  | [_] => none
  | [a, b] => some (NavVec3.unproject a b (s / pathLength [a, b]))
  | l => pointOnPathWalk s l

/-- Area cost assignment, nav_mesh.rs:518: the new cost is clamped below at
zero, the previous cost is returned.  Out-of-bounds slice indexing panics
in the source and is modelled by none. -/
def setAreaCost (m : NavMesh) (index : ℕ) (cost : Scalar) : Option (Scalar × NavMesh) :=
  match m.areas.get? index with
  | none => none
  | some area =>
    some (area.cost, { m with areas := m.areas.set index { area with cost := max cost 0 } })

/-- Boundary-edge (hard-edge) map entry of one triangle, nav_mesh.rs:397:
the subset of the three edges whose edge-map occurrence list is shorter
than two, as vertex point pairs in triangle order, and no entry when that
subset is empty. -/
def hardEdgesEntry (m : NavMesh) (i : ℕ) : Option (List (NavVec3 × NavVec3)) :=
  match m.triangles.get? i with
  | none => none
  | some t =>
    let planes :=
      (if (m.edgeTris (connMk t.first t.second)).length < 2 then
        [(m.vertexAt t.first, m.vertexAt t.second)] else []) ++
      (if (m.edgeTris (connMk t.second t.third)).length < 2 then
        [(m.vertexAt t.second, m.vertexAt t.third)] else []) ++
      (if (m.edgeTris (connMk t.third t.first)).length < 2 then
        [(m.vertexAt t.third, m.vertexAt t.first)] else [])
    if planes.isEmpty then none else some planes

end NavMesh

/-- Spec-shaped count: how many triangle-edge slots of the mesh carry a
given edge connection (each triangle contributes up to three slots; a
triangle with a repeated vertex can contribute the same edge twice). -/
def slotIncidences (ts : List NavTriangle) (e : NavConnection) : ℕ :=
  (ts.map fun t => (triEdges t).count e).sum

/-- Spec-shaped count: how many triangles of the mesh are incident to a
given edge connection, each triangle counted once (the count the claim
about boundary edges speaks of). -/
def incidentTriangles (ts : List NavTriangle) (e : NavConnection) : ℕ :=
  (ts.filter fun t => (triEdges t).contains e).length

/-- Spec-shaped boundary subset of one triangle: those of its three edges
whose slot-incidence count is below two, as vertex point pairs in triangle
order. -/
def boundaryPlanesSpec (vs : List NavVec3) (ts : List NavTriangle) (t : NavTriangle) :
    List (NavVec3 × NavVec3) :=
  (if slotIncidences ts (connMk t.first t.second) < 2 then
    [(vAt vs t.first, vAt vs t.second)] else []) ++
  (if slotIncidences ts (connMk t.second t.third) < 2 then
    [(vAt vs t.second, vAt vs t.third)] else []) ++
  (if slotIncidences ts (connMk t.third t.first) < 2 then
    [(vAt vs t.third, vAt vs t.first)] else [])

/-- The data carried by a reported build error is correct: the value is out
of bounds, it sits at the reported slot of the reported triangle, and every
earlier slot of that triangle is in bounds (slots are checked in index
order per triangle). -/
def errorDataCorrect (vs : List NavVec3) (ts : List NavTriangle) (i w v : ℕ) : Prop :=
  vs.length ≤ v ∧ (ts.get? i).map (fun t => t.slot w) = some v ∧
    ∀ w2 < w, ((ts.get? i).map fun t => t.slot w2).getD 0 < vs.length

/-- Fixture: one flat right triangle in the z = 0 plane. -/
def meshA : NavMesh :=
  ⟨[⟨0, 0, 0⟩, ⟨1, 0, 0⟩, ⟨0, 1, 0⟩], [⟨0, 1, 2⟩],
    mkAreas [⟨0, 0, 0⟩, ⟨1, 0, 0⟩, ⟨0, 1, 0⟩] [⟨0, 1, 2⟩]⟩

/-- Fixture: two coplanar triangles sharing the edge between vertices 1
and 2. -/
def meshB : NavMesh :=
  ⟨[⟨0, 0, 0⟩, ⟨1, 0, 0⟩, ⟨0, 1, 0⟩, ⟨1, 1, 0⟩], [⟨0, 1, 2⟩, ⟨1, 3, 2⟩],
    mkAreas [⟨0, 0, 0⟩, ⟨1, 0, 0⟩, ⟨0, 1, 0⟩, ⟨1, 1, 0⟩] [⟨0, 1, 2⟩, ⟨1, 3, 2⟩]⟩

/-- Fixture: a single degenerate triangle that repeats its second vertex,
so its first and third edge slots carry the same edge connection. -/
def meshC : NavMesh :=
  ⟨[⟨0, 0, 0⟩, ⟨1, 0, 0⟩], [⟨0, 1, 1⟩], mkAreas [⟨0, 0, 0⟩, ⟨1, 0, 0⟩] [⟨0, 1, 1⟩]⟩

@[simp] theorem NavVec3.mk_add (x1 y1 z1 x2 y2 z2 : Scalar) :
    (⟨x1, y1, z1⟩ : NavVec3) + ⟨x2, y2, z2⟩ = ⟨x1 + x2, y1 + y2, z1 + z2⟩ := rfl

@[simp] theorem NavVec3.mk_sub (x1 y1 z1 x2 y2 z2 : Scalar) :
    (⟨x1, y1, z1⟩ : NavVec3) - ⟨x2, y2, z2⟩ = ⟨x1 - x2, y1 - y2, z1 - z2⟩ := rfl

@[simp] theorem NavVec3.mk_hmul (x y z s : Scalar) :
    (⟨x, y, z⟩ : NavVec3) * s = ⟨x * s, y * s, z * s⟩ := rfl

@[simp] theorem NavVec3.mk_hdiv (x y z s : Scalar) :
    (⟨x, y, z⟩ : NavVec3) / s = ⟨x / s, y / s, z / s⟩ := rfl

@[simp] theorem NavVec3.dot_mk (x1 y1 z1 x2 y2 z2 : Scalar) :
    NavVec3.dot ⟨x1, y1, z1⟩ ⟨x2, y2, z2⟩ = x1 * x2 + y1 * y2 + z1 * z2 := rfl

@[simp] theorem NavVec3.cross_mk (x1 y1 z1 x2 y2 z2 : Scalar) :
    NavVec3.cross ⟨x1, y1, z1⟩ ⟨x2, y2, z2⟩ =
      ⟨y1 * z2 - z1 * y2, z1 * x2 - x1 * z2, x1 * y2 - y1 * x2⟩ := rfl

@[simp] theorem NavVec3.sqrMagnitude_mk (x y z : Scalar) :
    NavVec3.sqrMagnitude ⟨x, y, z⟩ = x * x + y * y + z * z := rfl

@[simp] theorem NavVec3.magnitude_mk (x y z : Scalar) :
    NavVec3.magnitude ⟨x, y, z⟩ = Real.sqrt (x * x + y * y + z * z) := rfl

theorem segSum_nonneg (l : List NavVec3) : 0 ≤ NavMesh.segSum l := by
  induction l with
  | nil => simp [NavMesh.segSum]
  | cons a t ih =>
    cases t with
    | nil => simp [NavMesh.segSum]
    | cons b r =>
      rw [NavMesh.segSum]
      exact add_nonneg (Real.sqrt_nonneg _) ih

theorem pathLength_eq_segSum (l : List NavVec3) : NavMesh.pathLength l = NavMesh.segSum l := by
  match l with
  | [] => rfl
  | [a] => rfl
  | [a, b] => simp [NavMesh.pathLength, NavMesh.segSum]
  | a :: b :: c :: r => rfl

theorem pathLength_nonneg (l : List NavVec3) : 0 ≤ NavMesh.pathLength l := by
  rw [pathLength_eq_segSum]
  exact segSum_nonneg l

/-- C8: for every path, query point and offset, the arc-length projection is
clamped into the closed interval from zero to the total path length. -/
theorem c8_project_on_path_clamped (path : List NavVec3) (point : NavVec3) (offset : Scalar) :
    0 ≤ NavMesh.projectOnPath path point offset ∧
      NavMesh.projectOnPath path point offset ≤ NavMesh.pathLength path := by
  unfold NavMesh.projectOnPath
  exact ⟨le_min (le_max_right _ 0) (pathLength_nonneg path), min_le_right _ _⟩

theorem pointOnPathWalk_gt_none (l : List NavVec3) :
    ∀ s : Scalar, NavMesh.segSum l < s → NavMesh.pointOnPathWalk s l = none := by
  induction l with
  | nil => intro s _; rfl
  | cons a t ih =>
    intro s hs
    cases t with
    | nil => rfl
    | cons b r =>
      rw [NavMesh.segSum] at hs
      rw [NavMesh.pointOnPathWalk, if_neg]
      · exact ih _ (by linarith)
      · have h0 := segSum_nonneg (b :: r)
        push_neg
        linarith

/-- C5: point_on_path returns none on paths of zero or one points, linearly
interpolates at parameter s divided by the path length on two-point paths,
and on longer paths the segment walk yields none whenever the distance
exceeds the total path length. -/
theorem c5_point_on_path (p q : NavVec3) (path : List NavVec3) (s : Scalar) :
    NavMesh.pointOnPath [] s = none ∧
    NavMesh.pointOnPath [p] s = none ∧
    NavMesh.pointOnPath [p, q] s =
      some (NavVec3.unproject p q (s / NavMesh.pathLength [p, q])) ∧
    (3 ≤ path.length → NavMesh.pathLength path < s → NavMesh.pointOnPath path s = none) := by
  refine ⟨rfl, rfl, rfl, ?_⟩
  intro hlen hgt
  match path, hlen with
  | a :: b :: c :: r, _ =>
    rw [pathLength_eq_segSum] at hgt
    exact pointOnPathWalk_gt_none (a :: b :: c :: r) s hgt

theorem c5_witness :
    3 ≤ ([⟨0, 0, 0⟩, ⟨1, 0, 0⟩, ⟨1, 2, 0⟩] : List NavVec3).length ∧
    NavMesh.pathLength [⟨0, 0, 0⟩, ⟨1, 0, 0⟩, ⟨1, 2, 0⟩] < 4 ∧
    NavMesh.pointOnPath [⟨0, 0, 0⟩, ⟨1, 0, 0⟩, ⟨1, 2, 0⟩] 4 = none := by
  have hlen : NavMesh.pathLength [(⟨0, 0, 0⟩ : NavVec3), ⟨1, 0, 0⟩, ⟨1, 2, 0⟩] < 4 := by
    rw [pathLength_eq_segSum]
    simp only [NavMesh.segSum, NavVec3.mk_sub, NavVec3.magnitude_mk]
    norm_num
    rw [show (4 : ℝ) = 2 ^ 2 by norm_num, Real.sqrt_sq (by norm_num : (0:ℝ) ≤ 2)]
    norm_num
  exact ⟨by simp, hlen,
    (c5_point_on_path ⟨0, 0, 0⟩ ⟨0, 0, 0⟩ [⟨0, 0, 0⟩, ⟨1, 0, 0⟩, ⟨1, 2, 0⟩] 4).2.2.2
      (by simp) hlen⟩

/-- C10: set_area_cost is partial at the public interface: an index at or
beyond the area list yields the out-of-bounds panic (modelled by none),
and an in-range index stores the cost clamped below at zero and returns
the previous cost, leaving everything else unchanged. -/
theorem c10_set_area_cost (m : NavMesh) (i : ℕ) (c : Scalar) :
    m.setAreaCost i c =
      if i < m.areas.length then
        some ((m.areas.getD i default).cost,
          { m with areas := m.areas.set i { m.areas.getD i default with cost := max c 0 } })
      else none := by
  unfold NavMesh.setAreaCost
  cases h : m.areas.get? i with
  | none =>
    rw [if_neg]
    intro hlt
    rw [List.get?_eq_none] at h
    omega
  | some a =>
    have hlt : i < m.areas.length := by
      by_contra hc
      push_neg at hc
      rw [List.get?_eq_none.mpr hc] at h
      cases h
    have hd : m.areas.getD i default = a := by
      rw [List.getD_eq_getElem?_getD, ← List.get?_eq_getElem?, h]
      rfl
    rw [if_pos hlt, hd]

/-- C7: a path query from a triangle to itself returns the one-element
corridor with total cost zero. -/
theorem c7_trivial_path (m : NavMesh) (i : ℕ) (h : i < m.triangles.length) :
    m.findPathTriangles i i = some ([i], 0) := by
  unfold NavMesh.findPathTriangles NavMesh.findPathTrianglesCustom
  rw [if_pos ⟨h, h⟩]
  unfold bfs
  rw [bfsAux]
  simp [NavMesh.pathCost]

theorem c7_witness : 0 < meshA.triangles.length ∧ meshA.findPathTriangles 0 0 = some ([0], 0) :=
  ⟨by simp [meshA], c7_trivial_path meshA 0 (by simp [meshA])⟩

/-- C3: the closest-point query of a spatial record follows exactly the
first-match-wins decision order over the three edge projection parameters:
the three corner cases, then the three edge cases guarded by the cached
outward-plane tests, then the face-plane projection. -/
theorem c3_closest_point_decision_order (i : ℕ) (a b c p : NavVec3) :
    (p.project c a > 1 ∧ p.project a b < 0 →
      (NavSpatialObject.new i a b c).closestPoint p = a) ∧
    (¬(p.project c a > 1 ∧ p.project a b < 0) →
      p.project a b > 1 ∧ p.project b c < 0 →
      (NavSpatialObject.new i a b c).closestPoint p = b) ∧
    (¬(p.project c a > 1 ∧ p.project a b < 0) →
      ¬(p.project a b > 1 ∧ p.project b c < 0) →
      p.project b c > 1 ∧ p.project c a < 0 →
      (NavSpatialObject.new i a b c).closestPoint p = c) ∧
    (¬(p.project c a > 1 ∧ p.project a b < 0) →
      ¬(p.project a b > 1 ∧ p.project b c < 0) →
      ¬(p.project b c > 1 ∧ p.project c a < 0) →
      (0 ≤ p.project a b ∧ p.project a b ≤ 1) ∧
        ¬ p.isAbovePlane a (NavSpatialObject.new i a b c).dab →
      (NavSpatialObject.new i a b c).closestPoint p =
        NavVec3.unproject a b (p.project a b)) ∧
    (¬(p.project c a > 1 ∧ p.project a b < 0) →
      ¬(p.project a b > 1 ∧ p.project b c < 0) →
      ¬(p.project b c > 1 ∧ p.project c a < 0) →
      ¬((0 ≤ p.project a b ∧ p.project a b ≤ 1) ∧
        ¬ p.isAbovePlane a (NavSpatialObject.new i a b c).dab) →
      (0 ≤ p.project b c ∧ p.project b c ≤ 1) ∧
        ¬ p.isAbovePlane b (NavSpatialObject.new i a b c).dbc →
      (NavSpatialObject.new i a b c).closestPoint p =
        NavVec3.unproject b c (p.project b c)) ∧
    (¬(p.project c a > 1 ∧ p.project a b < 0) →
      ¬(p.project a b > 1 ∧ p.project b c < 0) →
      ¬(p.project b c > 1 ∧ p.project c a < 0) →
      ¬((0 ≤ p.project a b ∧ p.project a b ≤ 1) ∧
        ¬ p.isAbovePlane a (NavSpatialObject.new i a b c).dab) →
      ¬((0 ≤ p.project b c ∧ p.project b c ≤ 1) ∧
        ¬ p.isAbovePlane b (NavSpatialObject.new i a b c).dbc) →
      (0 ≤ p.project c a ∧ p.project c a ≤ 1) ∧
        ¬ p.isAbovePlane c (NavSpatialObject.new i a b c).dca →
      (NavSpatialObject.new i a b c).closestPoint p =
        NavVec3.unproject c a (p.project c a)) ∧
    (¬(p.project c a > 1 ∧ p.project a b < 0) →
      ¬(p.project a b > 1 ∧ p.project b c < 0) →
      ¬(p.project b c > 1 ∧ p.project c a < 0) →
      ¬((0 ≤ p.project a b ∧ p.project a b ≤ 1) ∧
        ¬ p.isAbovePlane a (NavSpatialObject.new i a b c).dab) →
      ¬((0 ≤ p.project b c ∧ p.project b c ≤ 1) ∧
        ¬ p.isAbovePlane b (NavSpatialObject.new i a b c).dbc) →
      ¬((0 ≤ p.project c a ∧ p.project c a ≤ 1) ∧
        ¬ p.isAbovePlane c (NavSpatialObject.new i a b c).dca) →
      (NavSpatialObject.new i a b c).closestPoint p =
        p.projectOnPlane a (NavSpatialObject.new i a b c).normal) := by
  unfold NavSpatialObject.closestPoint NavSpatialObject.new
  refine ⟨fun h1 => ?_, fun n1 h2 => ?_, fun n1 n2 h3 => ?_, fun n1 n2 n3 h4 => ?_,
    fun n1 n2 n3 n4 h5 => ?_, fun n1 n2 n3 n4 n5 h6 => ?_, fun n1 n2 n3 n4 n5 n6 => ?_⟩
  · rw [if_pos h1]
  · rw [if_neg n1, if_pos h2]
  · rw [if_neg n1, if_neg n2, if_pos h3]
  · rw [if_neg n1, if_neg n2, if_neg n3, if_pos h4]
  · rw [if_neg n1, if_neg n2, if_neg n3, if_neg n4, if_pos h5]
  · rw [if_neg n1, if_neg n2, if_neg n3, if_neg n4, if_neg n5, if_pos h6]
  · rw [if_neg n1, if_neg n2, if_neg n3, if_neg n4, if_neg n5, if_neg n6]

theorem c3_witness :
    ((⟨-1, -1, 0⟩ : NavVec3).project ⟨0, 1, 0⟩ ⟨0, 0, 0⟩ > 1 ∧
      (⟨-1, -1, 0⟩ : NavVec3).project ⟨0, 0, 0⟩ ⟨1, 0, 0⟩ < 0) ∧
    (NavSpatialObject.new 0 ⟨0, 0, 0⟩ ⟨1, 0, 0⟩ ⟨0, 1, 0⟩).closestPoint ⟨-1, -1, 0⟩ =
      ⟨0, 0, 0⟩ := by
  have hcond : (⟨-1, -1, 0⟩ : NavVec3).project ⟨0, 1, 0⟩ ⟨0, 0, 0⟩ > 1 ∧
      (⟨-1, -1, 0⟩ : NavVec3).project ⟨0, 0, 0⟩ ⟨1, 0, 0⟩ < 0 := by
    unfold NavVec3.project
    norm_num
  exact ⟨hcond, (c3_closest_point_decision_order 0 ⟨0, 0, 0⟩ ⟨1, 0, 0⟩ ⟨0, 1, 0⟩ ⟨-1, -1, 0⟩).1
    hcond⟩

/-- C1 (amended): an edge rejected by the filter is charged SCALAR_MAX, the
largest finite scalar, not an actual infinity, and this never makes a node
unreachable: whether the triangle path query answers at all is independent
of the filter, so an all-false filter still returns a corridor (of huge
cost) whenever one exists, rather than none. -/
theorem c1_filter_rejection (m : NavMesh) (src dst : ℕ) (f g : Scalar → ℕ → ℕ → Bool)
    (u v : ℕ) :
    ((m.findPathTrianglesCustom src dst f).isSome ↔
      (m.findPathTrianglesCustom src dst g).isSome) ∧
    (f (((m.connLookup (connMk u v)).map Prod.fst).getD 0) u v = false →
      m.edgeCostFn f u v = SCALAR_MAX) := by
  constructor
  · unfold NavMesh.findPathTrianglesCustom
    split
    · cases bfs m.graphEdges src dst (m.triangles.length + 1) <;> simp
    · exact Iff.rfl
  · intro hf
    unfold NavMesh.edgeCostFn
    rw [if_neg]
    simp [hf]

theorem c1_witness :
    ((meshA.findPathTrianglesCustom 0 0 fun _ _ _ => false).isSome ↔
      (meshA.findPathTrianglesCustom 0 0 fun _ _ _ => true).isSome) ∧
    meshA.edgeCostFn (fun _ _ _ => false) 0 0 = SCALAR_MAX :=
  ⟨(c1_filter_rejection meshA 0 0 (fun _ _ _ => false) (fun _ _ _ => true) 0 0).1,
    (c1_filter_rejection meshA 0 0 (fun _ _ _ => false) (fun _ _ _ => true) 0 0).2 rfl⟩

theorem c1_counterexample :
    NavMesh.new [⟨0, 0, 0⟩, ⟨1, 0, 0⟩, ⟨0, 1, 0⟩, ⟨1, 1, 0⟩] [⟨0, 1, 2⟩, ⟨1, 3, 2⟩] =
      .ok meshB ∧
    (0 : ℕ) ≠ 1 ∧
    meshB.findPathTrianglesCustom 0 1 (fun _ _ _ => false) = some ([0, 1], SCALAR_MAX) := by
  have hbfs : bfs (NavMesh.graphEdges meshB) 0 1 (meshB.triangles.length + 1) =
      some [0, 1] := by decide
  refine ⟨rfl, by decide, ?_⟩
  unfold NavMesh.findPathTrianglesCustom
  rw [if_pos (by constructor <;> simp [meshB])]
  rw [hbfs]
  simp [NavMesh.pathCost, NavMesh.edgeCostFn]

theorem firstErrorAux_none_iff (n : ℕ) (l : List NavTriangle) :
    ∀ k, firstErrorAux n k l = none ↔ ∀ t ∈ l, t.first < n ∧ t.second < n ∧ t.third < n := by
  induction l with
  | nil => intro k; simp [firstErrorAux]
  | cons t rest ih =>
    intro k
    rw [firstErrorAux]
    cases hc : checkTriangle n k t with
    | some e =>
      simp only []
      constructor
      · intro h; cases h
      · intro hall
        obtain ⟨h1, h2, h3⟩ := hall t (List.mem_cons_self t rest)
        unfold checkTriangle at hc
        split_ifs at hc with a1 a2 a3 <;> omega
    | none =>
      simp only []
      rw [ih (k + 1)]
      constructor
      · intro hrest t2 ht2
        rcases List.mem_cons.mp ht2 with rfl | hm
        · unfold checkTriangle at hc
          split_ifs at hc with a1 a2 a3
          exact ⟨by omega, by omega, by omega⟩
        · exact hrest t2 hm
      · intro hall t2 ht2
        exact hall t2 (List.mem_cons_of_mem _ ht2)

theorem firstErrorAux_some (n : ℕ) (l : List NavTriangle) :
    ∀ k i w v, firstErrorAux n k l = some (.TriangleVerticeIndexOutOfBounds i w v) →
      ∃ j t, i = k + j ∧ l.get? j = some t ∧ t.slot w = v ∧ n ≤ v ∧
        ∀ w2 < w, t.slot w2 < n := by
  induction l with
  | nil => intro k i w v h; cases h
  | cons t rest ih =>
    intro k i w v h
    rw [firstErrorAux] at h
    cases hc : checkTriangle n k t with
    | some e =>
      rw [hc] at h
      injection h with he
      subst he
      unfold checkTriangle at hc
      split_ifs at hc with a1 a2 a3
      · injection hc with hc2
        injection hc2 with e1 e2 e3
        subst e1; subst e2; subst e3
        exact ⟨0, t, by omega, rfl, rfl, a1, by omega⟩
      · injection hc with hc2
        injection hc2 with e1 e2 e3
        subst e1; subst e2; subst e3
        refine ⟨0, t, by omega, rfl, rfl, a2, ?_⟩
        intro w2 hw2
        interval_cases w2
        simp only [NavTriangle.slot]
        omega
      · injection hc with hc2
        injection hc2 with e1 e2 e3
        subst e1; subst e2; subst e3
        refine ⟨0, t, by omega, rfl, rfl, a3, ?_⟩
        intro w2 hw2
        interval_cases w2
        · simp only [NavTriangle.slot]
          omega
        · simp only [NavTriangle.slot]
          omega
    | none =>
      rw [hc] at h
      obtain ⟨j, t2, hj, hget, hslot, hle, hprev⟩ := ih (k + 1) i w v h
      exact ⟨j + 1, t2, by omega, by simpa using hget, hslot, hle, hprev⟩

/-- C6: the build fails exactly when some triangle slot holds a vertex index
at or beyond the vertex count, the reported error carries a real offending
triangle, slot and value with every earlier slot of that triangle in
bounds, and an all-in-bounds input builds a mesh. -/
theorem c6_build_validation (vs : List NavVec3) (ts : List NavTriangle) (i w v : ℕ) :
    ((NavMesh.new vs ts).isOk ↔ trianglesInBounds vs ts) ∧
    (NavMesh.new vs ts = .error (.TriangleVerticeIndexOutOfBounds i w v) →
      errorDataCorrect vs ts i w v) := by
  constructor
  · unfold NavMesh.new
    cases hfe : firstErrorAux vs.length 0 ts with
    | some e =>
      constructor
      · intro h
        rw [show (Except.error (α := NavMesh) e).isOk = false from rfl] at h
        cases h
      · intro hall
        rw [(firstErrorAux_none_iff vs.length ts 0).mpr hall] at hfe
        cases hfe
    | none =>
      have h2 := (firstErrorAux_none_iff vs.length ts 0).mp hfe
      constructor
      · intro _; exact h2
      · intro _; rfl
  · intro h
    unfold NavMesh.new at h
    cases hfe : firstErrorAux vs.length 0 ts with
    | none => rw [hfe] at h; cases h
    | some e =>
      rw [hfe] at h
      injection h with he
      subst he
      obtain ⟨j, t, hj, hget, hslot, hle, hprev⟩ := firstErrorAux_some vs.length ts 0 i w v hfe
      have hij : i = j := by omega
      subst hij
      refine ⟨hle, by rw [hget]; simpa using hslot, ?_⟩
      intro w2 hw2
      rw [hget]
      simpa using hprev w2 hw2

theorem c6_witness :
    NavMesh.new [⟨0, 0, 0⟩] [⟨0, 5, 0⟩] = .error (.TriangleVerticeIndexOutOfBounds 0 1 5) ∧
    errorDataCorrect [⟨0, 0, 0⟩] [⟨0, 5, 0⟩] 0 1 5 := by
  have h : NavMesh.new [(⟨0, 0, 0⟩ : NavVec3)] [⟨0, 5, 0⟩] =
      .error (.TriangleVerticeIndexOutOfBounds 0 1 5) := rfl
  exact ⟨h, (c6_build_validation [⟨0, 0, 0⟩] [⟨0, 5, 0⟩] 0 1 5).2 h⟩

theorem buildEdgesMapAux_length (l : List NavTriangle) :
    ∀ (k : ℕ) (f : NavConnection → List ℕ) (e : NavConnection),
      (buildEdgesMapAux k l f e).length = (f e).length + slotIncidences l e := by
  induction l with
  | nil => intro k f e; simp [buildEdgesMapAux, slotIncidences]
  | cons t rest ih =>
    intro k f e
    rw [buildEdgesMapAux, ih (k + 1) (pushTriangle f k t) e]
    have hp : (pushTriangle f k t e).length = (f e).length + (triEdges t).count e := by
      unfold pushTriangle pushEdge triEdges
      split_ifs with h1 h2 h3 <;>
        simp_all [List.count_cons, List.length_append, eq_comm]
    have hs : slotIncidences (t :: rest) e = (triEdges t).count e + slotIncidences rest e := by
      simp [slotIncidences]
    omega

theorem buildEdgesMap_length (ts : List NavTriangle) (e : NavConnection) :
    (buildEdgesMap ts e).length = slotIncidences ts e := by
  unfold buildEdgesMap
  rw [buildEdgesMapAux_length]
  simp

/-- C9 (amended): on a successfully built mesh, the hard-edge map entry of a
triangle collects exactly those of its three edges whose slot-incidence
count over the whole mesh (number of triangle-edge slots carrying the edge,
which equals the number of incident triangles whenever no triangle repeats
an edge) is below two, stored as vertex point pairs in the triangle's own
vertex order, and the triangle has an entry iff that collection is
nonempty. -/
theorem c9_hard_edges (vs : List NavVec3) (ts : List NavTriangle) (m : NavMesh) (i : ℕ)
    (t : NavTriangle) (hm : NavMesh.new vs ts = .ok m) (ht : ts.get? i = some t) :
    m.hardEdgesEntry i =
      if (boundaryPlanesSpec vs ts t).isEmpty then none
      else some (boundaryPlanesSpec vs ts t) := by
  unfold NavMesh.new at hm
  cases hfe : firstErrorAux vs.length 0 ts with
  | some e => rw [hfe] at hm; cases hm
  | none =>
    rw [hfe] at hm
    injection hm with hm2
    subst hm2
    unfold NavMesh.hardEdgesEntry NavMesh.edgeTris NavMesh.vertexAt
    simp only [ht]
    unfold boundaryPlanesSpec
    simp only [buildEdgesMap_length]

theorem c9_witness :
    NavMesh.new [⟨0, 0, 0⟩, ⟨1, 0, 0⟩, ⟨0, 1, 0⟩, ⟨1, 1, 0⟩] [⟨0, 1, 2⟩, ⟨1, 3, 2⟩] =
      .ok meshB ∧
    ([⟨0, 1, 2⟩, ⟨1, 3, 2⟩] : List NavTriangle).get? 0 = some ⟨0, 1, 2⟩ ∧
    meshB.hardEdgesEntry 0 =
      if (boundaryPlanesSpec [⟨0, 0, 0⟩, ⟨1, 0, 0⟩, ⟨0, 1, 0⟩, ⟨1, 1, 0⟩]
          [⟨0, 1, 2⟩, ⟨1, 3, 2⟩] ⟨0, 1, 2⟩).isEmpty then none
      else some (boundaryPlanesSpec [⟨0, 0, 0⟩, ⟨1, 0, 0⟩, ⟨0, 1, 0⟩, ⟨1, 1, 0⟩]
          [⟨0, 1, 2⟩, ⟨1, 3, 2⟩] ⟨0, 1, 2⟩) :=
  ⟨rfl, rfl,
    c9_hard_edges [⟨0, 0, 0⟩, ⟨1, 0, 0⟩, ⟨0, 1, 0⟩, ⟨1, 1, 0⟩] [⟨0, 1, 2⟩, ⟨1, 3, 2⟩]
      meshB 0 ⟨0, 1, 2⟩ rfl rfl⟩

theorem c9_counterexample :
    NavMesh.new [⟨0, 0, 0⟩, ⟨1, 0, 0⟩] [⟨0, 1, 1⟩] = .ok meshC ∧
    incidentTriangles [⟨0, 1, 1⟩] (connMk 0 1) = 1 ∧
    meshC.hardEdgesEntry 0 = some [(⟨1, 0, 0⟩, ⟨1, 0, 0⟩)] ∧
    ((⟨0, 0, 0⟩ : NavVec3), (⟨1, 0, 0⟩ : NavVec3)) ∉
      [((⟨1, 0, 0⟩ : NavVec3), (⟨1, 0, 0⟩ : NavVec3))] := by
  refine ⟨rfl, by decide, rfl, ?_⟩
  intro hmem
  rw [List.mem_singleton, Prod.ext_iff] at hmem
  have hx := congrArg NavVec3.x hmem.1
  norm_num at hx

theorem sideOf_eq_one (v : Scalar) (h : ZERO_TRESHOLD ≤ v) : NavVec3.sideOf v = 1 := by
  have hv : (0 : ℝ) < v := lt_of_lt_of_le (by norm_num [ZERO_TRESHOLD]) h
  unfold NavVec3.sideOf
  rw [if_neg, if_pos hv]
  rw [abs_of_pos hv]
  exact not_lt.mpr h

theorem sideOf_eq_neg_one (v : Scalar) (h : v ≤ -ZERO_TRESHOLD) : NavVec3.sideOf v = -1 := by
  have hv : v < 0 := lt_of_le_of_lt h (by norm_num [ZERO_TRESHOLD])
  unfold NavVec3.sideOf
  rw [if_neg, if_neg (not_lt.mpr hv.le)]
  rw [abs_of_neg hv]
  apply not_lt.mpr
  have := neg_le_neg h
  simpa using this

/-- C4: on a corridor of exactly two triangles whose stored connection names
the shared portal edge, the midpoints refinement emits the portal midpoint
exactly when the faces fold or the straight segment misses the portal, and
otherwise goes straight; on coplanar neighbors with the segment through the
portal both refinement modes return the straight two-point path. -/
theorem c4_two_triangle_refinement (m : NavMesh) (t0 t1 : ℕ) (p q : NavVec3)
    (w : Scalar) (e : NavConnection)
    (h : m.connLookup (connMk t0 t1) = some (w, e)) :
    (m.findPathMidpoints p q [t0, t1] =
      if (m.normalAt t0).dot (m.normalAt t1) < 1 - ZERO_TRESHOLD ∨
          ¬ NavVec3.isLineBetweenPoints p q (m.vertexAt e.fst) (m.vertexAt e.snd)
            (m.normalAt t0) then
        [p, (m.vertexAt e.fst + m.vertexAt e.snd) * (0.5 : Scalar), q]
      else [p, q]) ∧
    (1 - ZERO_TRESHOLD ≤ (m.normalAt t0).dot (m.normalAt t1) →
      NavVec3.isLineBetweenPoints p q (m.vertexAt e.fst) (m.vertexAt e.snd) (m.normalAt t0) →
      m.findPathAccuracy p q [t0, t1] = [p, q]) := by
  have hp : m.portal t0 t1 = e := by
    unfold NavMesh.portal
    rw [h]
    rfl
  constructor
  · simp only [NavMesh.findPathMidpoints]
    rw [hp]
  · intro hdot hbet
    simp only [NavMesh.findPathAccuracy]
    rw [hp]
    rw [if_neg (not_not_intro hbet), if_neg (not_lt.mpr hdot)]

theorem c4_witness :
    meshB.connLookup (connMk 0 1) = some (2 / 9, ⟨1, 2⟩) ∧
    1 - ZERO_TRESHOLD ≤ (meshB.normalAt 0).dot (meshB.normalAt 1) ∧
    NavVec3.isLineBetweenPoints ⟨0.2, 0.2, 0⟩ ⟨0.8, 0.8, 0⟩ (meshB.vertexAt 1)
      (meshB.vertexAt 2) (meshB.normalAt 0) ∧
    meshB.findPathMidpoints ⟨0.2, 0.2, 0⟩ ⟨0.8, 0.8, 0⟩ [0, 1] =
      [⟨0.2, 0.2, 0⟩, ⟨0.8, 0.8, 0⟩] ∧
    meshB.findPathAccuracy ⟨0.2, 0.2, 0⟩ ⟨0.8, 0.8, 0⟩ [0, 1] =
      [⟨0.2, 0.2, 0⟩, ⟨0.8, 0.8, 0⟩] := by
  have hfind : (meshB.allEdgeConns.find? fun e =>
      (meshB.edgeTris e).contains (connMk 0 1).fst &&
      (meshB.edgeTris e).contains (connMk 0 1).snd &&
      (connMk 0 1).fst != (connMk 0 1).snd) = some ⟨1, 2⟩ := by decide
  have hc0 : (meshB.areaAt 0).center = ⟨1 / 3, 1 / 3, 0⟩ := by
    unfold NavMesh.areaAt meshB mkAreas NavArea.calculateCenter vAt
    norm_num [List.enum, List.enumFrom]
  have hc1 : (meshB.areaAt 1).center = ⟨2 / 3, 2 / 3, 0⟩ := by
    unfold NavMesh.areaAt meshB mkAreas NavArea.calculateCenter vAt
    norm_num [List.enum, List.enumFrom]
  have hconn : meshB.connLookup (connMk 0 1) = some (2 / 9, ⟨1, 2⟩) := by
    unfold NavMesh.connLookup
    rw [hfind]
    rw [show ((connMk 0 1).snd) = 1 from rfl, show ((connMk 0 1).fst) = 0 from rfl]
    rw [Option.map_some', hc0, hc1]
    norm_num
  have hsp0 : meshB.spatialAt 0 = NavSpatialObject.new 0 ⟨0, 0, 0⟩ ⟨1, 0, 0⟩ ⟨0, 1, 0⟩ := by
    unfold NavMesh.spatialAt NavMesh.spatials NavMesh.vertexAt vAt
    simp [meshB, List.enum, List.enumFrom]
  have hsp1 : meshB.spatialAt 1 = NavSpatialObject.new 1 ⟨1, 0, 0⟩ ⟨1, 1, 0⟩ ⟨0, 1, 0⟩ := by
    unfold NavMesh.spatialAt NavMesh.spatials NavMesh.vertexAt vAt
    simp [meshB, List.enum, List.enumFrom]
  have hn0 : meshB.normalAt 0 = ⟨0, 0, 1⟩ := by
    unfold NavMesh.normalAt
    rw [hsp0]
    simp [NavSpatialObject.new, NavVec3.normalize]
  have hn1 : meshB.normalAt 1 = ⟨0, 0, 1⟩ := by
    unfold NavMesh.normalAt
    rw [hsp1]
    simp [NavSpatialObject.new, NavVec3.normalize]
  have hv1 : meshB.vertexAt 1 = ⟨1, 0, 0⟩ := rfl
  have hv2 : meshB.vertexAt 2 = ⟨0, 1, 0⟩ := rfl
  have hdot : 1 - ZERO_TRESHOLD ≤ (meshB.normalAt 0).dot (meshB.normalAt 1) := by
    rw [hn0, hn1]
    norm_num [ZERO_TRESHOLD]
  have hbet : NavVec3.isLineBetweenPoints ⟨0.2, 0.2, 0⟩ ⟨0.8, 0.8, 0⟩ (meshB.vertexAt 1)
      (meshB.vertexAt 2) (meshB.normalAt 0) := by
    rw [hv1, hv2, hn0]
    unfold NavVec3.isLineBetweenPoints
    simp only [NavVec3.mk_sub, NavVec3.cross_mk, NavVec3.dot_mk]
    norm_num
    rw [sideOf_eq_one, sideOf_eq_neg_one]
    · decide
    · norm_num [ZERO_TRESHOLD]
    · norm_num [ZERO_TRESHOLD]
  have hmain := c4_two_triangle_refinement meshB 0 1 ⟨0.2, 0.2, 0⟩ ⟨0.8, 0.8, 0⟩ (2 / 9)
    ⟨1, 2⟩ hconn
  refine ⟨hconn, hdot, hbet, ?_, hmain.2 hdot hbet⟩
  rw [hmain.1, if_neg]
  rw [not_or]
  exact ⟨not_lt.mpr hdot, not_not_intro hbet⟩

theorem dedupC_head? (l : List NavVec3) : (dedupC l).head? = l.head? := by
  induction l with
  | nil => rfl
  | cons a t ih =>
    cases t with
    | nil => rfl
    | cons b r =>
      rw [dedupC]
      split_ifs with h
      · rw [ih]
        simp [h]
      · simp

theorem dedupC_ne_nil (l : List NavVec3) (h : l ≠ []) : dedupC l ≠ [] := by
  intro hc
  have h2 := dedupC_head? l
  rw [hc] at h2
  cases l with
  | nil => exact h rfl
  | cons a t => simp at h2

theorem dedupC_getLast? (l : List NavVec3) : (dedupC l).getLast? = l.getLast? := by
  induction l with
  | nil => rfl
  | cons a t ih =>
    cases t with
    | nil => rfl
    | cons b r =>
      rw [dedupC]
      split_ifs with h
      · rw [ih, List.getLast?_cons_cons]
      · obtain ⟨c, cs, hcc⟩ := List.exists_cons_of_ne_nil (dedupC_ne_nil (b :: r) (by simp))
        rw [hcc, List.getLast?_cons_cons, ← hcc, ih, List.getLast?_cons_cons]

theorem dedupC_chain' (l : List NavVec3) : List.Chain' (fun x y => x ≠ y) (dedupC l) := by
  induction l with
  | nil => simp [dedupC]
  | cons a t ih =>
    cases t with
    | nil => simp [dedupC]
    | cons b r =>
      rw [dedupC]
      split_ifs with h
      · exact ih
      · rw [List.chain'_cons']
        refine ⟨?_, ih⟩
        intro y hy
        rw [dedupC_head? (b :: r)] at hy
        simp at hy
        subst hy
        exact h

theorem midStep_foldl_suffix (m : NavMesh) (ws : List (ℕ × ℕ × ℕ)) :
    ∀ st : NavVec3 × NavVec3 × List NavVec3, ∃ suf,
      (ws.foldl m.midStep st).2.2 = st.2.2 ++ suf := by
  induction ws with
  | nil => intro st; exact ⟨[], by simp⟩
  | cons w rest ih =>
    intro st
    obtain ⟨suf, hsuf⟩ := ih (m.midStep st w)
    have hstep : ∃ x, (m.midStep st w).2.2 = st.2.2 ++ x := by
      simp only [NavMesh.midStep]
      split_ifs <;> first
      | exact ⟨[], (List.append_nil _).symm⟩
      | exact ⟨_, rfl⟩
    obtain ⟨x, hx⟩ := hstep
    rw [List.foldl_cons, hsuf, hx, List.append_assoc]
    exact ⟨x ++ suf, rfl⟩

theorem findPathAccuracy_head? (m : NavMesh) (p q : NavVec3) (tris : List ℕ)
    (h : 2 ≤ tris.length) : (m.findPathAccuracy p q tris).head? = some p := by
  match tris with
  | [] => simp at h
  | [t0] => simp at h
  | [t0, t1] =>
    simp only [NavMesh.findPathAccuracy]
    repeat' split
    all_goals simp
  | t0 :: t1 :: t2 :: rest =>
    simp only [NavMesh.findPathAccuracy]
    rw [dedupC_head?]
    simp

theorem findPathAccuracy_getLast? (m : NavMesh) (p q : NavVec3) (tris : List ℕ)
    (h : 2 ≤ tris.length) : (m.findPathAccuracy p q tris).getLast? = some q := by
  match tris with
  | [] => simp at h
  | [t0] => simp at h
  | [t0, t1] =>
    simp only [NavMesh.findPathAccuracy]
    repeat' split
    all_goals simp
  | t0 :: t1 :: t2 :: rest =>
    simp only [NavMesh.findPathAccuracy]
    rw [dedupC_getLast?, ← List.cons_append, List.getLast?_concat]

theorem findPathAccuracy_chain' (m : NavMesh) (p q : NavVec3) (tris : List ℕ)
    (h : 3 ≤ tris.length) :
    List.Chain' (fun x y => x ≠ y) (m.findPathAccuracy p q tris) := by
  match tris with
  | [] => simp at h
  | [t0] => simp at h
  | [t0, t1] => simp at h
  | t0 :: t1 :: t2 :: rest =>
    simp only [NavMesh.findPathAccuracy]
    exact dedupC_chain' _

theorem findPathMidpoints_head? (m : NavMesh) (p q : NavVec3) (tris : List ℕ)
    (h : 2 ≤ tris.length) : (m.findPathMidpoints p q tris).head? = some p := by
  match tris with
  | [] => simp at h
  | [t0] => simp at h
  | [t0, t1] =>
    simp only [NavMesh.findPathMidpoints]
    repeat' split
    all_goals simp
  | t0 :: t1 :: t2 :: rest =>
    simp only [NavMesh.findPathMidpoints]
    rw [dedupC_head?]
    obtain ⟨suf, hsuf⟩ := midStep_foldl_suffix m (windows3 (t0 :: t1 :: t2 :: rest))
      (p, m.normalAt t0, [p])
    rw [hsuf]
    split <;> simp

theorem findPathMidpoints_getLast? (m : NavMesh) (p q : NavVec3) (tris : List ℕ)
    (h : 2 ≤ tris.length) : (m.findPathMidpoints p q tris).getLast? = some q := by
  match tris with
  | [] => simp at h
  | [t0] => simp at h
  | [t0, t1] =>
    simp only [NavMesh.findPathMidpoints]
    repeat' split
    all_goals simp
  | t0 :: t1 :: t2 :: rest =>
    simp only [NavMesh.findPathMidpoints]
    rw [dedupC_getLast?, List.getLast?_concat]

theorem findPathMidpoints_chain' (m : NavMesh) (p q : NavVec3) (tris : List ℕ)
    (h : 3 ≤ tris.length) :
    List.Chain' (fun x y => x ≠ y) (m.findPathMidpoints p q tris) := by
  match tris with
  | [] => simp at h
  | [t0] => simp at h
  | [t0, t1] => simp at h
  | t0 :: t1 :: t2 :: rest =>
    simp only [NavMesh.findPathMidpoints]
    exact dedupC_chain' _

/-- C2 (amended): every path the full query returns starts at the snapped
start point and ends at the snapped end point; it is free of consecutive
duplicates whenever the triangle corridor has three or more triangles (the
branches for corridors of one or two triangles skip the dedup pass and can
emit consecutive duplicates, e.g. when both endpoints snap to the same
point). -/
theorem c2_path_endpoints (m : NavMesh) (p q : NavVec3) (query : NavQuery)
    (mode : NavPathMode) (filter : Scalar → ℕ → ℕ → Bool) (P : List NavVec3)
    (s e : ℕ) (tris : List ℕ) (cst : Scalar)
    (hs : m.findClosestTriangle p query = some s)
    (he : m.findClosestTriangle q query = some e)
    (ht : m.findPathTrianglesCustom s e filter = some (tris, cst))
    (hP : m.findPathCustom p q query mode filter = some P) :
    P.head? = some ((m.spatialAt s).closestPoint p) ∧
    P.getLast? = some ((m.spatialAt e).closestPoint q) ∧
    (3 ≤ tris.length → List.Chain' (fun x y => x ≠ y) P) := by
  unfold NavMesh.findPathCustom at hP
  by_cases hsame : NavVec3.sameAs p q
  · rw [if_pos hsame] at hP
    cases hP
  · rw [if_neg hsame, hs, he] at hP
    simp only [ht] at hP
    by_cases hemp : tris.isEmpty = true
    · rw [if_pos hemp] at hP
      cases hP
    · rw [if_neg hemp] at hP
      by_cases h1 : tris.length = 1
      · rw [if_pos h1] at hP
        injection hP with hP2
        subst hP2
        refine ⟨rfl, by simp, ?_⟩
        intro h3
        omega
      · rw [if_neg h1] at hP
        have hlen2 : 2 ≤ tris.length := by
          have hne : tris ≠ [] := by
            intro hh
            exact hemp (by simp [hh])
          have hpos : 0 < tris.length := List.length_pos.mpr hne
          omega
        cases mode with
        | Accuracy =>
          injection hP with hP2
          subst hP2
          exact ⟨findPathAccuracy_head? m _ _ tris hlen2,
            findPathAccuracy_getLast? m _ _ tris hlen2,
            fun h3 => findPathAccuracy_chain' m _ _ tris h3⟩
        | MidPoints =>
          injection hP with hP2
          subst hP2
          exact ⟨findPathMidpoints_head? m _ _ tris hlen2,
            findPathMidpoints_getLast? m _ _ tris hlen2,
            fun h3 => findPathMidpoints_chain' m _ _ tris h3⟩

theorem meshA_spatials :
    meshA.spatials = [NavSpatialObject.new 0 ⟨0, 0, 0⟩ ⟨1, 0, 0⟩ ⟨0, 1, 0⟩] := by
  unfold NavMesh.spatials NavMesh.vertexAt vAt
  simp [meshA, List.enum, List.enumFrom]

theorem meshA_spatialAt :
    meshA.spatialAt 0 = NavSpatialObject.new 0 ⟨0, 0, 0⟩ ⟨1, 0, 0⟩ ⟨0, 1, 0⟩ := by
  unfold NavMesh.spatialAt
  rw [meshA_spatials]
  rfl

theorem meshA_find_closest (p : NavVec3) (query : NavQuery) :
    meshA.findClosestTriangle p query = some 0 := by
  cases query <;>
    (unfold NavMesh.findClosestTriangle; rw [meshA_spatials]; simp [NavSpatialObject.new])

theorem meshA_record : NavSpatialObject.new 0 ⟨0, 0, 0⟩ ⟨1, 0, 0⟩ ⟨0, 1, 0⟩ =
    ⟨0, ⟨0, 0, 0⟩, ⟨1, 0, 0⟩, ⟨0, 1, 0⟩, ⟨1, 0, 0⟩, ⟨-1, 1, 0⟩, ⟨0, -1, 0⟩,
      ⟨0, 0, 1⟩, ⟨0, 1, 0⟩, ⟨-1, -1, 0⟩, ⟨1, 0, 0⟩⟩ := by
  simp [NavSpatialObject.new, NavVec3.normalize]

theorem meshA_snap_p1 :
    (meshA.spatialAt 0).closestPoint ⟨0.25, 0.25, 1⟩ = ⟨0.25, 0.25, 0⟩ := by
  rw [meshA_spatialAt, meshA_record]
  simp only [NavSpatialObject.closestPoint]
  norm_num [NavVec3.project, NavVec3.isAbovePlane, NavVec3.projectOnPlane, ZERO_TRESHOLD]

theorem meshA_snap_m1 :
    (meshA.spatialAt 0).closestPoint ⟨0.25, 0.25, -1⟩ = ⟨0.25, 0.25, 0⟩ := by
  rw [meshA_spatialAt, meshA_record]
  simp only [NavSpatialObject.closestPoint]
  norm_num [NavVec3.project, NavVec3.isAbovePlane, NavVec3.projectOnPlane, ZERO_TRESHOLD]

theorem meshA_snap_b :
    (meshA.spatialAt 0).closestPoint ⟨0.75, 0.125, 2⟩ = ⟨0.75, 0.125, 0⟩ := by
  rw [meshA_spatialAt, meshA_record]
  simp only [NavSpatialObject.closestPoint]
  norm_num [NavVec3.project, NavVec3.isAbovePlane, NavVec3.projectOnPlane, ZERO_TRESHOLD]

theorem meshA_self_path :
    meshA.findPathTrianglesCustom 0 0 (fun _ _ _ => true) = some ([0], 0) := by
  unfold NavMesh.findPathTrianglesCustom
  rw [if_pos (by constructor <;> simp [meshA])]
  unfold bfs
  rw [bfsAux]
  simp [NavMesh.pathCost]

theorem c2_counterexample :
    meshA.findPathCustom ⟨0.25, 0.25, 1⟩ ⟨0.25, 0.25, -1⟩ NavQuery.Accuracy NavPathMode.Accuracy
      (fun _ _ _ => true) = some [⟨0.25, 0.25, 0⟩, ⟨0.25, 0.25, 0⟩] ∧
    ¬ List.Chain' (fun x y => x ≠ y) [(⟨0.25, 0.25, 0⟩ : NavVec3), ⟨0.25, 0.25, 0⟩] := by
  have hsame : ¬ NavVec3.sameAs ⟨0.25, 0.25, 1⟩ ⟨0.25, 0.25, -1⟩ := by
    unfold NavVec3.sameAs
    intro h
    have h3 := h.2.2
    rw [show ((⟨0.25, 0.25, 1⟩ : NavVec3).z - (⟨0.25, 0.25, -1⟩ : NavVec3).z) = 2 by norm_num,
      abs_of_pos (by norm_num : (0 : ℝ) < 2)] at h3
    norm_num [ZERO_TRESHOLD] at h3
  constructor
  · unfold NavMesh.findPathCustom
    rw [if_neg hsame, meshA_find_closest, meshA_find_closest]
    simp only [meshA_self_path]
    rw [if_neg (by simp), if_pos (by simp)]
    rw [meshA_snap_p1, meshA_snap_m1]
  · intro h
    exact (List.chain'_cons.mp h).1 rfl

theorem c2_witness :
    meshA.findClosestTriangle ⟨0.25, 0.25, 1⟩ NavQuery.Accuracy = some 0 ∧
    meshA.findClosestTriangle ⟨0.75, 0.125, 2⟩ NavQuery.Accuracy = some 0 ∧
    meshA.findPathTrianglesCustom 0 0 (fun _ _ _ => true) = some ([0], 0) ∧
    meshA.findPathCustom ⟨0.25, 0.25, 1⟩ ⟨0.75, 0.125, 2⟩ NavQuery.Accuracy
      NavPathMode.MidPoints (fun _ _ _ => true) =
      some [⟨0.25, 0.25, 0⟩, ⟨0.75, 0.125, 0⟩] ∧
    ([(⟨0.25, 0.25, 0⟩ : NavVec3), ⟨0.75, 0.125, 0⟩].head? =
      some ((meshA.spatialAt 0).closestPoint ⟨0.25, 0.25, 1⟩) ∧
    [(⟨0.25, 0.25, 0⟩ : NavVec3), ⟨0.75, 0.125, 0⟩].getLast? =
      some ((meshA.spatialAt 0).closestPoint ⟨0.75, 0.125, 2⟩) ∧
    (3 ≤ ([0] : List ℕ).length →
      List.Chain' (fun x y => x ≠ y) [(⟨0.25, 0.25, 0⟩ : NavVec3), ⟨0.75, 0.125, 0⟩])) := by
  have hsame : ¬ NavVec3.sameAs ⟨0.25, 0.25, 1⟩ ⟨0.75, 0.125, 2⟩ := by
    unfold NavVec3.sameAs
    intro h
    have h3 := h.2.2
    rw [show ((⟨0.25, 0.25, 1⟩ : NavVec3).z - (⟨0.75, 0.125, 2⟩ : NavVec3).z) = -1 by norm_num,
      abs_of_neg (by norm_num : (-1 : ℝ) < 0)] at h3
    norm_num [ZERO_TRESHOLD] at h3
  have hpath : meshA.findPathCustom ⟨0.25, 0.25, 1⟩ ⟨0.75, 0.125, 2⟩ NavQuery.Accuracy
      NavPathMode.MidPoints (fun _ _ _ => true) =
      some [⟨0.25, 0.25, 0⟩, ⟨0.75, 0.125, 0⟩] := by
    unfold NavMesh.findPathCustom
    rw [if_neg hsame, meshA_find_closest, meshA_find_closest]
    simp only [meshA_self_path]
    rw [if_neg (by simp), if_pos (by simp)]
    rw [meshA_snap_p1, meshA_snap_b]
  exact ⟨meshA_find_closest _ _, meshA_find_closest _ _, meshA_self_path, hpath,
    c2_path_endpoints meshA ⟨0.25, 0.25, 1⟩ ⟨0.75, 0.125, 2⟩ NavQuery.Accuracy
      NavPathMode.MidPoints (fun _ _ _ => true) [⟨0.25, 0.25, 0⟩, ⟨0.75, 0.125, 0⟩]
      0 0 [0] 0 (meshA_find_closest _ _) (meshA_find_closest _ _) meshA_self_path hpath⟩

end Navmesh


